import Mathlib

/-!
Shallow embedding of the source-discovery and recommendation pipeline of
the `ai-discovery-monitor` repository (files `scoring.py`, `db.py`,
`monitor.py`), together with proofs settling the frozen claims about it.

Modelling conventions:
* Python `float` scores are modelled as `ℚ` (all score arithmetic in the
  code is on small decimal literals and small integer ratios, where exact
  rational comparison agrees with the IEEE comparisons the code performs);
* Python strings are Lean `String`s, Python's substring test
  `needle in hay` is `pyIn`, and `str.lower` is `lower` (ASCII-faithful,
  which covers the repository's vocabulary and source names);
* the SQLite tables are lists of rows; a row's autoincrement `id` is
  `length + 1` at insertion time (the tables are append-only in the code,
  so this matches SQLite rowid assignment), and unused audit columns
  (`created_at`, `discovered_at`, `last_checked`) are omitted because no
  modelled operation reads or writes them;
* `datetime.now().isoformat()` is threaded as an explicit `now : String`
  argument, and `datetime.fromisoformat` followed by the day difference
  against the wall clock is abstracted as a function
  `ageOf : String → Option Int` (`none` models a parse failure, which the
  code's bare `except: pass` swallows);
* Python's decimal rendering of floats inside f-strings is modelled on ℚ
  by `fmt2` (the `:.2f` slot) and `fmtPyFloat` (the plain `str` slot);
  binary-double rounding artifacts of the rendering are not modelled, and
  no claim depends on those two helpers' output.
-/

/-- Character-list prefix test, building block for Python's substring
membership operator. -/
def isPrefixChars : List Char → List Char → Bool
  | [], _ => true
  | _ :: _, [] => false
  | a :: as, b :: bs => a == b && isPrefixChars as bs

/-- `containsSub hay needle` is true iff `needle` occurs contiguously in
`hay`. -/
def containsSub (hay needle : List Char) : Bool :=
  isPrefixChars needle hay ||
    match hay with
    | [] => false
    | _ :: t => containsSub t needle

/-- Python's `needle in hay` on strings. -/
def pyIn (needle hay : String) : Bool :=
  containsSub hay.data needle.data

/-- Python's `str.lower` (ASCII-faithful). -/
def lower (s : String) : String :=
  ⟨s.data.map Char.toLower⟩

/-- Decimal digits of `num / den` after the point, `fuel` bounding the
expansion (all thresholds in the code have short finite expansions). -/
def fracDigits : Nat → Nat → Nat → String
  | 0, _, _ => ""
  | fuel + 1, num, den =>
    if num = 0 then "" else
      toString (num * 10 / den) ++ fracDigits fuel (num * 10 % den) den

/-- Python's `str()` of a float inside an f-string slot, modelled on ℚ for
the simple decimal values the pipeline passes there (e.g. `0.7`). -/
def fmtPyFloat (q : ℚ) : String :=
  let a : ℚ := |q|
  let den : Nat := a.den
  let intPart : Nat := a.num.toNat / den
  let frac : String := fracDigits 17 (a.num.toNat % den) den
  (if q < 0 then "-" else "") ++ toString intPart ++ "." ++
    (if frac = "" then "0" else frac)

/-- Python's `f"{x:.2f}"` slot, modelled on ℚ. -/
def fmt2 (q : ℚ) : String :=
  let n : Int := round (q * 100)
  let a : Nat := n.natAbs
  (if n < 0 then "-" else "") ++ toString (a / 100) ++ "." ++
    (if a % 100 < 10 then "0" else "") ++ toString (a % 100)

/-! ### `scoring.py`: `RelevanceScorer` -/

/-- `scoring.py` lines 8–13: class `RelevanceScorer`, holding the interest
vocabulary (already lowercased by `__init__`). -/
structure RelevanceScorer where
  interests : List String
deriving Repr, DecidableEq

/-- `RelevanceScorer.__init__` (`scoring.py` lines 11–13): lowercases every
interest term. -/
def RelevanceScorer.init (interests : List String) : RelevanceScorer :=
  ⟨interests.map lower⟩

/-- `scoring.py` lines 15–29, `RelevanceScorer.score_content`. -/
def RelevanceScorer.score_content (self : RelevanceScorer) (content : String) : ℚ :=
  if content = "" then 0
  else
    let content_lower := lower content
    let matched_interests := (self.interests.filter (fun i => pyIn i content_lower)).length
    if self.interests = [] then 1/2
    else min 1 ((matched_interests : ℚ) / (self.interests.length : ℚ))

/-- `scoring.py` lines 31–41, `RelevanceScorer.score_name`. -/
def RelevanceScorer.score_name (self : RelevanceScorer) (name : String) : ℚ :=
  if name = "" then 0
  else
    let name_lower := lower name
    let matched_interests := (self.interests.filter (fun i => pyIn i name_lower)).length
    if matched_interests > 0 then
      min 1 ((matched_interests : ℚ) / (self.interests.length : ℚ))
    else 3/10

/-! ### `db.py`: the SQLite store -/

/-- Row of the `primary_sources` table (`db.py` lines 24–34). -/
structure PrimaryRow where
  id : Nat
  name : String
  url : Option String
  source_type : String
  handle : Option String
deriving Repr, DecidableEq

/-- Row of the `discovered_sources` table (`db.py` lines 37–51). -/
structure DiscoveredRow where
  id : Nat
  name : String
  url : Option String
  handle : Option String
  source_type : String
  relevance_score : ℚ
  citation_count : Nat
  last_active : Option String
  recommendation_sent : Bool
  recommendation_sent_at : Option String
deriving Repr, DecidableEq

/-- Row of the `citations` table (`db.py` lines 54–64). -/
structure CitationRow where
  id : Nat
  primary_source_id : Nat
  discovered_source_id : Nat
  citation_text : String
  citation_date : String
deriving Repr, DecidableEq

/-- Row of the `recommendations` table (`db.py` lines 67–76); the
`recommendation_date` column defaults to the time of the insert. -/
structure RecommendationRow where
  source_id : Nat
  relevance_score : ℚ
  reasoning : String
  recommendation_date : String
deriving Repr, DecidableEq

/-- The four tables of `DiscoveryDB` (`db.py`). -/
structure DB where
  primary_sources : List PrimaryRow
  discovered_sources : List DiscoveredRow
  citations : List CitationRow
  recommendations : List RecommendationRow
deriving Repr, DecidableEq

/-- `db.py` lines 80–91, `DiscoveryDB.add_primary_source`:
`INSERT OR IGNORE` keyed on the unique `name`, then select the id by
name. -/
def DB.add_primary_source (db : DB) (name : String) (url : Option String)
    (source_type : String) (handle : Option String) : DB × Option Nat :=
  let db' :=
    if db.primary_sources.any (fun r => r.name == name) then db
    else
      { db with primary_sources := db.primary_sources ++
          [{ id := db.primary_sources.length + 1, name := name, url := url,
             source_type := source_type, handle := handle }] }
  (db', (db'.primary_sources.find? (fun r => r.name == name)).map (fun r => r.id))

/-- `db.py` lines 93–107, `DiscoveryDB.add_discovered_source`:
`INSERT OR IGNORE` keyed on the unique `name`; `citation_count`,
`recommendation_sent` and `recommendation_sent_at` take their schema
defaults (`0`, false, NULL); returns the id selected by name
(`result[0] if result else None`). -/
def DB.add_discovered_source (db : DB) (name : String) (url : Option String)
    (source_type : String) (handle : Option String) (relevance_score : ℚ)
    (now : String) : DB × Option Nat :=
  let db' :=
    if db.discovered_sources.any (fun r => r.name == name) then db
    else
      { db with discovered_sources := db.discovered_sources ++
          [{ id := db.discovered_sources.length + 1, name := name, url := url,
             handle := handle, source_type := source_type,
             relevance_score := relevance_score, citation_count := 0,
             last_active := some now, recommendation_sent := false,
             recommendation_sent_at := none }] }
  (db', (db'.discovered_sources.find? (fun r => r.name == name)).map (fun r => r.id))

/-- `db.py` lines 109–130, `DiscoveryDB.record_citation`: append one
Citation edge, then recompute the referenced row's `citation_count` as
`COUNT(*)` of edges pointing at it. -/
def DB.record_citation (db : DB) (primary_source_id discovered_source_id : Nat)
    (citation_text now : String) : DB :=
  let citations' := db.citations ++
    [{ id := db.citations.length + 1, primary_source_id := primary_source_id,
       discovered_source_id := discovered_source_id,
       citation_text := citation_text, citation_date := now }]
  let cnt := (citations'.filter
    (fun c => c.discovered_source_id == discovered_source_id)).length
  { db with
      citations := citations',
      discovered_sources := db.discovered_sources.map (fun r =>
        if r.id == discovered_source_id then { r with citation_count := cnt } else r) }

/-- Ordering used by `get_recommended_sources`'s
`ORDER BY relevance_score DESC, citation_count DESC`. -/
def eligibleOrder (a b : DiscoveredRow) : Prop :=
  b.relevance_score < a.relevance_score ∨
    (b.relevance_score = a.relevance_score ∧ b.citation_count ≤ a.citation_count)

instance : DecidableRel eligibleOrder := fun a b =>
  inferInstanceAs (Decidable (b.relevance_score < a.relevance_score ∨
    (b.relevance_score = a.relevance_score ∧ b.citation_count ≤ a.citation_count)))

/-- `db.py` lines 132–146, `DiscoveryDB.get_recommended_sources`: rows with
`relevance_score >= min_relevance AND citation_count >= citation_threshold
AND recommendation_sent = 0`, ordered by score then citations,
descending. -/
def DB.get_recommended_sources (db : DB) (min_relevance : ℚ)
    (citation_threshold : Nat) : List DiscoveredRow :=
  List.insertionSort eligibleOrder
    (db.discovered_sources.filter (fun r =>
      decide (min_relevance ≤ r.relevance_score) &&
        decide (citation_threshold ≤ r.citation_count) && !r.recommendation_sent))

/-- `db.py` lines 148–164, `DiscoveryDB.mark_recommendation_sent`: an
UPDATE of the rows whose id matches (no error when none does), then an
`INSERT ... SELECT` appending one Recommendation per matching row,
capturing the row's stored `relevance_score`. -/
def DB.mark_recommendation_sent (db : DB) (source_id : Nat)
    (reasoning now : String) : DB :=
  let ds := db.discovered_sources.map (fun r =>
    if r.id == source_id then
      { r with recommendation_sent := true, recommendation_sent_at := some now }
    else r)
  let newRecs := (ds.filter (fun r => r.id == source_id)).map (fun r =>
    { source_id := r.id, relevance_score := r.relevance_score,
      reasoning := reasoning, recommendation_date := now })
  { db with
      discovered_sources := ds,
      recommendations := db.recommendations ++ newRecs }

/-- `db.py` lines 166–174, `DiscoveryDB.get_source_by_name`, specialised to
its `source_type="discovered"` mode (the mode the pipeline coordinator
uses; the other mode reads `primary_sources` and is needed by no claim). -/
def DB.get_discovered_by_name (db : DB) (name : String) : Option DiscoveredRow :=
  db.discovered_sources.find? (fun r => r.name == name)

/-! ### `scoring.py`: `RecommendationEngine` -/

/-- `scoring.py` lines 61–105, `RecommendationEngine.should_recommend`
(the method reads none of `self`'s state). Defaults at the Python call
sites: `min_relevance=0.7`, `citation_threshold=2`, `max_age_days=90`. -/
def should_recommend (ageOf : String → Option Int) (source : DiscoveredRow)
    (min_relevance : ℚ) (citation_threshold : Nat) (max_age_days : Int) :
    Bool × String :=
  if source.relevance_score < min_relevance then
    (false, "Relevance score too low: " ++ fmt2 source.relevance_score ++
      " < " ++ fmtPyFloat min_relevance)
  else
    let reasons := ["Good relevance: " ++ fmt2 source.relevance_score]
    if source.citation_count < citation_threshold then
      (false, "Not enough citations: " ++ toString source.citation_count ++
        " < " ++ toString citation_threshold)
    else
      let reasons := reasons ++
        ["Cited " ++ toString source.citation_count ++ " times by trusted sources"]
      match source.last_active with
      | none => (true, String.intercalate " | " reasons)
      | some s =>
        if s = "" then (true, String.intercalate " | " reasons)
        else
          match ageOf s with
          | none => (true, String.intercalate " | " reasons)
          | some age_days =>
            if age_days > max_age_days then
              (false, "Source inactive for too long: " ++ toString age_days ++ " days")
            else
              (true, String.intercalate " | " (reasons ++
                ["Actively posting (" ++ toString age_days ++ " days ago)"]))

/-- `scoring.py` lines 120–123: recommendation strength,
`relevance_score * 0.5 + (citation_count / 10) * 0.5` (the citation term is
not capped). -/
def strength (source : DiscoveredRow) : ℚ :=
  source.relevance_score * (1/2) + ((source.citation_count : ℚ) / 10) * (1/2)

/-- Descending-by-strength order on the `(source, reasoning, strength)`
triples that `rank_sources` sorts; Python's stable `list.sort(key, reverse=True)`
is insertion into the sorted suffix before the first element of
less-or-equal key, which is `List.insertionSort` with this relation. -/
def strengthGE (a b : DiscoveredRow × String × ℚ) : Prop :=
  b.2.2 ≤ a.2.2

instance : DecidableRel strengthGE := fun a b =>
  inferInstanceAs (Decidable (b.2.2 ≤ a.2.2))

instance : IsTotal (DiscoveredRow × String × ℚ) strengthGE :=
  ⟨fun a b => le_total b.2.2 a.2.2⟩

instance : IsTrans (DiscoveredRow × String × ℚ) strengthGE :=
  ⟨fun _ _ _ h1 h2 => le_trans h2 h1⟩

/-- `scoring.py` lines 107–129, `RecommendationEngine.rank_sources`: keep
the sources accepted by `should_recommend` at its default thresholds,
attach their strength, sort by strength descending (stable), drop the
strength. -/
def rank_sources (ageOf : String → Option Int) (sources : List DiscoveredRow) :
    List (DiscoveredRow × String) :=
  let recommendations := sources.filterMap (fun source =>
    let dec := should_recommend ageOf source (7/10) 2 90
    if dec.1 then some (source, dec.2, strength source) else none)
  (List.insertionSort strengthGE recommendations).map (fun t => (t.1, t.2.1))

/-- The sources `should_recommend` (at default thresholds) accepts, with
their reasoning, in input order — `rank_sources` before its sort. -/
def accepted_sources (ageOf : String → Option Int)
    (sources : List DiscoveredRow) : List (DiscoveredRow × String) :=
  sources.filterMap (fun source =>
    let dec := should_recommend ageOf source (7/10) 2 90
    if dec.1 then some (source, dec.2) else none)

/-- The `(source, reasoning, strength)` triples `rank_sources` builds
before sorting (its `recommendations` list, in input order). -/
def rankedTriples (ageOf : String → Option Int) (sources : List DiscoveredRow) :
    List (DiscoveredRow × String × ℚ) :=
  sources.filterMap (fun source =>
    let dec := should_recommend ageOf source (7/10) 2 90
    if dec.1 then some (source, dec.2, strength source) else none)

/-! ### `monitor.py`: one per-candidate step of `discover_and_score` -/

/-- A raw candidate dict produced by the fetchers, as read by
`monitor.py` lines 80–107 (`source.get("name", "")` etc.). -/
structure Candidate where
  name : String
  url : Option String
  handle : Option String
  type : String
deriving Repr, DecidableEq

/-- The in-memory fields `discover_and_score` writes into the candidate
dict (`id`, `relevance_score`, `citation_count`). -/
structure ScoredSource where
  cand : Candidate
  id : Option Nat
  relevance_score : ℚ
  citation_count : Nat
deriving Repr, DecidableEq

/-- `monitor.py` lines 80–107: the per-candidate body of
`AIDiscoveryMonitor.discover_and_score`. An already-tracked name keeps the
stored row untouched and only updates the in-memory copy (max of scores,
stored citation count); a new name is inserted through
`add_discovered_source` and the in-memory copy gets `citation_count = 1`. -/
def discover_step (scorer : RelevanceScorer) (now : String) (db : DB)
    (source : Candidate) : DB × ScoredSource :=
  let existing := db.get_discovered_by_name source.name
  let relevance_score := scorer.score_name source.name
  match existing with
  | some ex =>
    (db, { cand := source, id := some ex.id,
           relevance_score := max ex.relevance_score relevance_score,
           citation_count := ex.citation_count })
  | none =>
    let res := db.add_discovered_source source.name source.url source.type
      source.handle relevance_score now
    (res.1, { cand := source, id := res.2,
              relevance_score := relevance_score, citation_count := 1 })

/-! ### Store operations as a transition system (for the monotone-flag
invariant) -/

/-- One call into `DiscoveryDB`. The two `get_` members are the read-only
queries (SQL `SELECT`s): they return data and leave the store unchanged. -/
inductive StoreOp where
  | add_primary_source (name : String) (url : Option String)
      (source_type : String) (handle : Option String)
  | add_discovered_source (name : String) (url : Option String)
      (source_type : String) (handle : Option String) (relevance_score : ℚ)
      (now : String)
  | record_citation (primary_source_id discovered_source_id : Nat)
      (citation_text now : String)
  | mark_recommendation_sent (source_id : Nat) (reasoning now : String)
  | get_recommended_sources (min_relevance : ℚ) (citation_threshold : Nat)
  | get_source_by_name (name : String)

/-- State effect of one store operation. -/
def applyOp (db : DB) : StoreOp → DB
  | .add_primary_source n u t h => (db.add_primary_source n u t h).1
  | .add_discovered_source n u t h r now => (db.add_discovered_source n u t h r now).1
  | .record_citation p d tx now => db.record_citation p d tx now
  | .mark_recommendation_sent s r now => db.mark_recommendation_sent s r now
  | .get_recommended_sources _ _ => db
  | .get_source_by_name _ => db

/-- State effect of a sequence of store operations. -/
def applyOps (db : DB) (ops : List StoreOp) : DB :=
  ops.foldl applyOp db

/-- Spec-side model of the `mark_sent` contract sentence of `spec.md` §4.2
("Fails with NotFound if the id does not exist"), stated only to compare
the code's behaviour against it. -/
def mark_sent_specContract (db : DB) (source_id : Nat) (reasoning now : String) :
    Except String DB :=
  if db.discovered_sources.any (fun r => r.id == source_id) then
    Except.ok (db.mark_recommendation_sent source_id reasoning now)
  else Except.error "NotFound"

/-! ### Concrete fixtures used by counterexamples and witnesses -/

/-- The empty store. -/
def db0 : DB :=
  { primary_sources := [], discovered_sources := [], citations := [],
    recommendations := [] }

/-- A discovered row matching spec Scenario C (relevance 0.8, 3 citations,
no `last_active`). -/
def rowC : DiscoveredRow :=
  { id := 1, name := "Scaling Laws Blog", url := none, handle := none,
    source_type := "blog", relevance_score := 4/5, citation_count := 3,
    last_active := none, recommendation_sent := false,
    recommendation_sent_at := none }

/-- A discovered row matching spec Scenario E (relevance 0.75, 1 citation). -/
def rowE : DiscoveredRow :=
  { id := 2, name := "Agents Digest", url := none, handle := none,
    source_type := "blog", relevance_score := 3/4, citation_count := 1,
    last_active := none, recommendation_sent := false,
    recommendation_sent_at := none }

/-- A row whose `recommendation_sent` flag is already true. -/
def rowSent : DiscoveredRow :=
  { id := 1, name := "Safety Newsletter", url := none, handle := none,
    source_type := "blog", relevance_score := 9/10, citation_count := 5,
    last_active := none, recommendation_sent := true,
    recommendation_sent_at := some "2026-01-01T00:00:00" }

/-- A store holding just `rowC`. -/
def dbC : DB :=
  { primary_sources := [], discovered_sources := [rowC], citations := [],
    recommendations := [] }

/-- A store holding just `rowSent`. -/
def dbSent : DB :=
  { primary_sources := [], discovered_sources := [rowSent], citations := [],
    recommendations := [] }

/-- A row with 40 citations and zero relevance: its ranking strength is 2,
exhibiting the uncapped citation term. -/
def rowUncapped : DiscoveredRow :=
  { id := 1, name := "Heavily Cited", url := none, handle := none,
    source_type := "blog", relevance_score := 0, citation_count := 40,
    last_active := none, recommendation_sent := false,
    recommendation_sent_at := none }

/-! ## Claims about the scorer -/

/-- C3 counterexample: with an empty interest vocabulary, `score_name` of
the non-empty name "Anything" returns the 0.3 floor, not the claimed
neutral 0.5 (the 0.5-on-empty-vocabulary rule is `score_content`'s). -/
theorem claim_C3_counterexample :
    (RelevanceScorer.init []).score_name "Anything" ≠ 1/2 := by
  have h : ((RelevanceScorer.init []).interests.filter
      (fun i => pyIn i (lower "Anything"))).length = 0 := by decide
  have hne : "Anything" ≠ "" := by decide
  simp only [RelevanceScorer.score_name, if_neg hne, h]
  norm_num

/-- C3, amended: for every non-empty name, with an empty interest
vocabulary `score_name` returns the fixed floor 0.3 (no term can match, so
the `matched_interests > 0` branch is never taken). -/
theorem claim_C3 (name : String) (hne : name ≠ "") :
    (RelevanceScorer.init []).score_name name = 3/10 := by
  have h : (RelevanceScorer.init []).interests = [] := rfl
  simp only [RelevanceScorer.score_name, if_neg hne, h, List.filter_nil,
    List.length_nil]
  norm_num

/-- C3 witness: the amended claim at the concrete name "AI Lab Updates". -/
theorem claim_C3_witness :
    "AI Lab Updates" ≠ "" ∧
      (RelevanceScorer.init []).score_name "AI Lab Updates" = 3/10 :=
  ⟨by decide, claim_C3 "AI Lab Updates" (by decide)⟩

/-- C4 counterexample: with vocabulary `["agents", "safety"]`,
`score_name "AI Safety Weekly"` is not 1.0 — "agents" is not a substring
of the lowercased name, so only one of the two terms matches. -/
theorem claim_C4_counterexample :
    (RelevanceScorer.init ["agents", "safety"]).score_name "AI Safety Weekly" ≠ 1 := by
  have h : ((RelevanceScorer.init ["agents", "safety"]).interests.filter
      (fun i => pyIn i (lower "AI Safety Weekly"))).length = 1 := by decide
  have hn : (RelevanceScorer.init ["agents", "safety"]).interests.length = 2 := by
    decide
  have hne : "AI Safety Weekly" ≠ "" := by decide
  simp only [RelevanceScorer.score_name, if_neg hne, h, hn]
  norm_num

/-- C4, amended: with vocabulary `["agents", "safety"]`,
`score_name "AI Safety Weekly"` returns 0.5: only "safety" occurs as a
substring of the lowercased name, and the score is matches divided by
vocabulary size, 1/2. -/
theorem claim_C4 :
    (RelevanceScorer.init ["agents", "safety"]).score_name "AI Safety Weekly" = 1/2 := by
  have h : ((RelevanceScorer.init ["agents", "safety"]).interests.filter
      (fun i => pyIn i (lower "AI Safety Weekly"))).length = 1 := by decide
  have hn : (RelevanceScorer.init ["agents", "safety"]).interests.length = 2 := by
    decide
  have hne : "AI Safety Weekly" ≠ "" := by decide
  simp only [RelevanceScorer.score_name, if_neg hne, h, hn]
  norm_num

/-- C10: `score_content` returns 0.0 for empty content whatever the
vocabulary (the empty-content check comes first), and 0.5 for every
non-empty content when the vocabulary is empty — while `score_name`
returns its 0.3 floor in the empty-vocabulary case. -/
theorem claim_C10 :
    (∀ interests : List String,
      (RelevanceScorer.init interests).score_content "" = 0) ∧
    (∀ content : String, content ≠ "" →
      (RelevanceScorer.init []).score_content content = 1/2) ∧
    (∀ name : String, name ≠ "" →
      (RelevanceScorer.init []).score_name name = 3/10) := by
  refine ⟨fun interests => ?_, fun content hne => ?_, fun name hne => ?_⟩
  · simp [RelevanceScorer.score_content]
  · have h : (RelevanceScorer.init []).interests = [] := rfl
    simp only [RelevanceScorer.score_content, if_neg hne, h]
    simp
  · have h : (RelevanceScorer.init []).interests = [] := rfl
    simp only [RelevanceScorer.score_name, if_neg hne, h, List.filter_nil,
      List.length_nil]
    norm_num

/-- C10 witness: the three parts at concrete inputs. -/
theorem claim_C10_witness :
    (RelevanceScorer.init ["agents"]).score_content "" = 0 ∧
    (RelevanceScorer.init []).score_content "weekly roundup" = 1/2 ∧
    (RelevanceScorer.init []).score_name "weekly roundup" = 3/10 :=
  ⟨claim_C10.1 ["agents"], claim_C10.2.1 "weekly roundup" (by decide),
    claim_C10.2.2 "weekly roundup" (by decide)⟩

/-! ## Claims about the recommendation decision -/

/-- C6: `should_recommend` accepts a source whose relevance score is
exactly the threshold (strict `<` comparison) whenever the citation and
freshness checks also pass; every source that passes the relevance gate
but has `citation_count` below the citation threshold is rejected with the
reason naming the exact numeric deficit; and Scenario E — relevance 0.75,
1 citation, citation threshold 2 — is rejected with exactly
"Not enough citations: 1 < 2". -/
theorem claim_C6 :
    (∀ (ageOf : String → Option Int) (source : DiscoveredRow) (min_relevance : ℚ)
        (citation_threshold : Nat) (max_age_days : Int),
      source.relevance_score = min_relevance →
      citation_threshold ≤ source.citation_count →
      (∀ s age, source.last_active = some s → ageOf s = some age →
        age ≤ max_age_days) →
      (should_recommend ageOf source min_relevance citation_threshold
        max_age_days).1 = true) ∧
    (∀ (ageOf : String → Option Int) (source : DiscoveredRow) (min_relevance : ℚ)
        (citation_threshold : Nat) (max_age_days : Int),
      min_relevance ≤ source.relevance_score →
      source.citation_count < citation_threshold →
      should_recommend ageOf source min_relevance citation_threshold
          max_age_days =
        (false, "Not enough citations: " ++ toString source.citation_count ++
          " < " ++ toString citation_threshold)) ∧
    should_recommend (fun _ => none) rowE (7/10) 2 90 =
      (false, "Not enough citations: 1 < 2") := by
  refine ⟨?_, ?_, ?_⟩
  · intro ageOf source minr thr maxa hrel hcit hfresh
    unfold should_recommend
    rw [hrel, if_neg (lt_irrefl minr), if_neg (not_lt.mpr hcit)]
    cases hla : source.last_active with
    | none => rfl
    | some s =>
      dsimp only
      by_cases hs : s = ""
      · rw [if_pos hs]
      · rw [if_neg hs]
        cases hage : ageOf s with
        | none => rfl
        | some age =>
          dsimp only
          rw [if_neg (not_lt.mpr (hfresh s age hla hage))]
  · intro ageOf source minr thr maxa hrel hcit
    unfold should_recommend
    rw [if_neg (not_lt.mpr hrel), if_pos hcit]
  · unfold should_recommend
    rw [if_neg (by norm_num [rowE] : ¬rowE.relevance_score < 7/10),
      if_pos (by norm_num [rowE] : rowE.citation_count < 2)]
    rfl

/-- C6 witness: the acceptance half at Scenario C's source (relevance
exactly 0.8 with threshold 0.8, 3 citations, no `last_active`) and the
rejection half at Scenario E's source under the default thresholds. -/
theorem claim_C6_witness :
    (should_recommend (fun _ => none) rowC (4/5) 2 90).1 = true ∧
    should_recommend (fun _ => none) rowE (7/10) 2 90 =
      (false, "Not enough citations: " ++ toString rowE.citation_count ++
        " < " ++ toString 2) :=
  ⟨claim_C6.1 (fun _ => none) rowC (4/5) 2 90 rfl (by decide)
      (fun s age h _ => by simp [rowC] at h),
    claim_C6.2.1 (fun _ => none) rowE (7/10) 2 90 (by norm_num [rowE])
      (by decide)⟩

/-! ## Claims about the store -/

/-- C2: every call to `record_citation` appends exactly one Citation edge
(the operation is not idempotent), and afterwards every stored row with
the referenced id has `citation_count` equal to the number of Citation
edges pointing at that id. -/
theorem claim_C2 (db : DB) (pid did : Nat) (text now : String) :
    (db.record_citation pid did text now).citations =
      db.citations ++
        [{ id := db.citations.length + 1, primary_source_id := pid,
           discovered_source_id := did, citation_text := text,
           citation_date := now }] ∧
    ((db.record_citation pid did text now).discovered_sources.all (fun r =>
      !(r.id == did) ||
        (r.citation_count ==
          ((db.record_citation pid did text now).citations.filter
            (fun c => c.discovered_source_id == did)).length))) = true := by
  constructor
  · rfl
  · rw [List.all_eq_true]
    intro r hr
    unfold DB.record_citation at hr
    dsimp only at hr
    obtain ⟨r0, hr0, hr0eq⟩ := List.mem_map.mp hr
    by_cases h : r0.id == did
    · rw [if_pos h] at hr0eq
      subst hr0eq
      dsimp only
      rw [Bool.or_eq_true]
      right
      exact beq_self_eq_true _
    · rw [if_neg h] at hr0eq
      subst hr0eq
      rw [Bool.or_eq_true]
      left
      simpa using h

/-- C5 counterexample: called on the empty store with id 1 (which does not
exist), the spec's contract demands a NotFound failure, but the code's
`mark_recommendation_sent` raises nothing and leaves the store unchanged
(its UPDATE matches no row and its INSERT ... SELECT selects nothing). -/
theorem claim_C5_counterexample :
    mark_sent_specContract db0 1 "why" "2026-02-02" = Except.error "NotFound" ∧
    DB.mark_recommendation_sent db0 1 "why" "2026-02-02" = db0 :=
  ⟨rfl, rfl⟩

/-- C5, amended: when no stored row carries the requested id,
`mark_recommendation_sent` is a silent no-op (no error, store unchanged);
when a row with the id exists, it sets `recommendation_sent`, stamps
`recommendation_sent_at`, and appends a Recommendation capturing the row's
relevance score at that moment. -/
theorem claim_C5 (db : DB) (source_id : Nat) (reasoning now : String) :
    ((db.discovered_sources.all (fun r => !(r.id == source_id))) = true →
      db.mark_recommendation_sent source_id reasoning now = db) ∧
    (∀ r ∈ db.discovered_sources, r.id = source_id →
      (∃ r' ∈ (db.mark_recommendation_sent source_id reasoning now).discovered_sources,
        r'.id = source_id ∧ r'.recommendation_sent = true ∧
        r'.recommendation_sent_at = some now ∧
        r'.relevance_score = r.relevance_score) ∧
      (∃ rec ∈ (db.mark_recommendation_sent source_id reasoning now).recommendations,
        rec.source_id = source_id ∧ rec.relevance_score = r.relevance_score ∧
        rec.reasoning = reasoning)) := by
  constructor
  · intro hall
    have hid : ∀ r ∈ db.discovered_sources, (r.id == source_id) = false := by
      intro r hr
      have := List.all_eq_true.mp hall r hr
      simpa using this
    unfold DB.mark_recommendation_sent
    dsimp only
    have h1 : db.discovered_sources.map (fun r =>
        if r.id == source_id then
          { r with recommendation_sent := true,
                   recommendation_sent_at := some now }
        else r) = db.discovered_sources := by
      have := List.map_congr_left (l := db.discovered_sources)
        (f := fun r : DiscoveredRow =>
          if r.id == source_id then
            { r with recommendation_sent := true,
                     recommendation_sent_at := some now }
          else r)
        (g := id)
        (fun r hr => by dsimp only; rw [hid r hr]; rfl)
      simpa using this
    rw [h1]
    have h2 : db.discovered_sources.filter (fun r => r.id == source_id) = [] :=
      List.filter_eq_nil_iff.mpr (fun r hr => by rw [hid r hr]; exact Bool.false_ne_true)
    rw [h2]
    simp
  · intro r hr hrid
    have hbeq : (r.id == source_id) = true := beq_iff_eq.mpr hrid
    have hmem' : ({ r with recommendation_sent := true,
                           recommendation_sent_at := some now } : DiscoveredRow) ∈
        db.discovered_sources.map (fun x =>
          if x.id == source_id then
            { x with recommendation_sent := true,
                     recommendation_sent_at := some now }
          else x) := by
      have h := List.mem_map_of_mem (f := fun x : DiscoveredRow =>
        if x.id == source_id then
          { x with recommendation_sent := true,
                   recommendation_sent_at := some now }
        else x) hr
      dsimp only at h
      rwa [if_pos hbeq] at h
    have hfil : ({ r with recommendation_sent := true,
                          recommendation_sent_at := some now } : DiscoveredRow) ∈
        (db.discovered_sources.map (fun x =>
          if x.id == source_id then
            { x with recommendation_sent := true,
                     recommendation_sent_at := some now }
          else x)).filter (fun x => x.id == source_id) :=
      List.mem_filter_of_mem hmem' hbeq
    have hrec := List.mem_map_of_mem (f := fun x : DiscoveredRow =>
      ({ source_id := x.id, relevance_score := x.relevance_score,
         reasoning := reasoning, recommendation_date := now } :
        RecommendationRow)) hfil
    unfold DB.mark_recommendation_sent
    dsimp only
    refine ⟨⟨{ r with recommendation_sent := true,
                      recommendation_sent_at := some now },
      hmem', hrid, rfl, rfl, rfl⟩,
      ⟨_, List.mem_append_right _ hrec, hrid, rfl, rfl⟩⟩

/-- C5 witness: on a store holding only `rowC` (id 1), marking id 2 is a
no-op, and marking id 1 sets the flag, the timestamp and the
Recommendation record. -/
theorem claim_C5_witness :
    (DB.mark_recommendation_sent dbC 2 "why" "2026-02-02" = dbC) ∧
    ((∃ r' ∈ (DB.mark_recommendation_sent dbC 1 "why" "2026-02-02").discovered_sources,
        r'.id = 1 ∧ r'.recommendation_sent = true ∧
        r'.recommendation_sent_at = some "2026-02-02" ∧
        r'.relevance_score = rowC.relevance_score) ∧
      (∃ rec ∈ (DB.mark_recommendation_sent dbC 1 "why" "2026-02-02").recommendations,
        rec.source_id = 1 ∧ rec.relevance_score = rowC.relevance_score ∧
        rec.reasoning = "why")) :=
  ⟨(claim_C5 dbC 2 "why" "2026-02-02").1 (by decide),
    (claim_C5 dbC 1 "why" "2026-02-02").2 rowC (List.mem_singleton_self rowC) rfl⟩

/-- A single store operation never clears a set `recommendation_sent`
flag: the row with the given id survives with the flag still true. -/
theorem applyOp_preserves_sent (db : DB) (op : StoreOp) (sid : Nat)
    (h : ∃ r ∈ db.discovered_sources, r.id = sid ∧ r.recommendation_sent = true) :
    ∃ r ∈ (applyOp db op).discovered_sources,
      r.id = sid ∧ r.recommendation_sent = true := by
  obtain ⟨r, hr, hid, hsent⟩ := h
  cases op with
  | add_primary_source n u t hd =>
    refine ⟨r, ?_, hid, hsent⟩
    unfold applyOp DB.add_primary_source
    dsimp only
    split
    · exact hr
    · exact hr
  | add_discovered_source n u t hd sc now =>
    refine ⟨r, ?_, hid, hsent⟩
    unfold applyOp DB.add_discovered_source
    dsimp only
    split
    · exact hr
    · exact List.mem_append_left _ hr
  | record_citation p d tx now =>
    unfold applyOp DB.record_citation
    dsimp only
    refine ⟨_, List.mem_map_of_mem _ hr, ?_, ?_⟩
    · dsimp only
      split
      · exact hid
      · exact hid
    · dsimp only
      split
      · exact hsent
      · exact hsent
  | mark_recommendation_sent s rs now =>
    unfold applyOp DB.mark_recommendation_sent
    dsimp only
    refine ⟨_, List.mem_map_of_mem _ hr, ?_, ?_⟩
    · dsimp only
      split
      · exact hid
      · exact hid
    · dsimp only
      split
      · rfl
      · exact hsent
  | get_recommended_sources mr ct => exact ⟨r, hr, hid, hsent⟩
  | get_source_by_name n => exact ⟨r, hr, hid, hsent⟩

/-- C8: once a stored row's `recommendation_sent` flag is true, no
sequence of store operations (inserts, citations, further marks, queries)
ever produces a state without a row of that id whose flag is still
true. -/
theorem claim_C8 (db : DB) (ops : List StoreOp) (sid : Nat)
    (h : ∃ r ∈ db.discovered_sources, r.id = sid ∧ r.recommendation_sent = true) :
    ∃ r ∈ (applyOps db ops).discovered_sources,
      r.id = sid ∧ r.recommendation_sent = true := by
  induction ops generalizing db with
  | nil => exact h
  | cons op rest ih => exact ih (applyOp db op) (applyOp_preserves_sent db op sid h)

/-- C8 witness: starting from a store whose only row is already marked
sent, a concrete mixed sequence of operations still shows the flag set. -/
theorem claim_C8_witness :
    ∃ r ∈ (applyOps dbSent
        [StoreOp.record_citation 1 1 "cited again" "2026-03-03",
         StoreOp.add_discovered_source "New Blog" none "blog" none (1/2) "2026-03-03",
         StoreOp.mark_recommendation_sent 1 "again" "2026-03-04",
         StoreOp.get_recommended_sources (7/10) 2,
         StoreOp.add_primary_source "A Primary" none "blog" none]).discovered_sources,
      r.id = 1 ∧ r.recommendation_sent = true :=
  claim_C8 dbSent _ 1 ⟨rowSent, List.mem_singleton_self rowSent, rfl, rfl⟩

/-! ## Claims about the discovery pass -/

/-- C1 counterexample: on the empty store, the first sighting of
"Safety Blog" stores a row whose `citation_count` is 0 (the schema
default — `add_discovered_source` never writes that column and
`discover_and_score` records no Citation edge), not 1. -/
theorem claim_C1_counterexample :
    ((discover_step (RelevanceScorer.init ["safety"]) "2026-01-05" db0
        { name := "Safety Blog", url := none, handle := none,
          type := "blog" }).1.discovered_sources.find?
      (fun r => r.name == "Safety Blog")).map (fun r => r.citation_count) ≠
        some 1 ∧
    ((discover_step (RelevanceScorer.init ["safety"]) "2026-01-05" db0
        { name := "Safety Blog", url := none, handle := none,
          type := "blog" }).1.discovered_sources.find?
      (fun r => r.name == "Safety Blog")).map (fun r => r.citation_count) =
        some 0 := by
  constructor
  · decide
  · decide

/-- C1, amended: when a candidate's name is not yet present, the stored
row created by the pass has `relevance_score` equal to the name-based
score but `citation_count = 0` (the schema default); the value 1 appears
only on the in-memory working copy of the candidate. -/
theorem claim_C1 (scorer : RelevanceScorer) (now : String) (db : DB)
    (source : Candidate)
    (hnew : db.get_discovered_by_name source.name = none) :
    (discover_step scorer now db source).1.get_discovered_by_name source.name =
      some { id := db.discovered_sources.length + 1, name := source.name,
             url := source.url, handle := source.handle,
             source_type := source.type,
             relevance_score := scorer.score_name source.name,
             citation_count := 0, last_active := some now,
             recommendation_sent := false, recommendation_sent_at := none } ∧
    (discover_step scorer now db source).2.citation_count = 1 ∧
    (discover_step scorer now db source).2.relevance_score =
      scorer.score_name source.name := by
  have hnone : ∀ r ∈ db.discovered_sources, ¬(r.name == source.name) = true := by
    intro r hr
    exact List.find?_eq_none.mp hnew r hr
  have hany : db.discovered_sources.any (fun r => r.name == source.name) = false := by
    rw [List.any_eq_false]
    exact hnone
  have hstep : discover_step scorer now db source =
      ((db.add_discovered_source source.name source.url source.type
          source.handle (scorer.score_name source.name) now).1,
        { cand := source,
          id := (db.add_discovered_source source.name source.url source.type
            source.handle (scorer.score_name source.name) now).2,
          relevance_score := scorer.score_name source.name,
          citation_count := 1 }) := by
    unfold discover_step
    rw [hnew]
  rw [hstep]
  refine ⟨?_, rfl, rfl⟩
  unfold DB.add_discovered_source DB.get_discovered_by_name
  dsimp only
  rw [hany, if_neg Bool.false_ne_true]
  dsimp only
  rw [List.find?_append]
  unfold DB.get_discovered_by_name at hnew
  rw [hnew]
  dsimp only [Option.none_or]
  rw [List.find?_cons_of_pos _ (by dsimp only; exact beq_self_eq_true _)]

/-- C1 witness: the amended claim at the concrete first sighting of
"Safety Blog" on the empty store. -/
theorem claim_C1_witness :
    (discover_step (RelevanceScorer.init ["safety"]) "2026-01-05" db0
        { name := "Safety Blog", url := none, handle := none,
          type := "blog" }).1.get_discovered_by_name "Safety Blog" =
      some { id := 1, name := "Safety Blog", url := none, handle := none,
             source_type := "blog",
             relevance_score :=
               (RelevanceScorer.init ["safety"]).score_name "Safety Blog",
             citation_count := 0, last_active := some "2026-01-05",
             recommendation_sent := false, recommendation_sent_at := none } ∧
    (discover_step (RelevanceScorer.init ["safety"]) "2026-01-05" db0
        { name := "Safety Blog", url := none, handle := none,
          type := "blog" }).2.citation_count = 1 ∧
    (discover_step (RelevanceScorer.init ["safety"]) "2026-01-05" db0
        { name := "Safety Blog", url := none, handle := none,
          type := "blog" }).2.relevance_score =
      (RelevanceScorer.init ["safety"]).score_name "Safety Blog" :=
  claim_C1 (RelevanceScorer.init ["safety"]) "2026-01-05" db0
    { name := "Safety Blog", url := none, handle := none, type := "blog" } rfl

/-! ## Claims about ranking -/

/-- C9: `rank_sources` takes no thresholds — it re-runs `should_recommend`
with the fixed defaults (0.7, 2, 90) — so whatever the thresholds of the
pass that produced its input (e.g. a laxer `get_recommended_sources`
query), every source in its output passes the defaults, and any source
failing them is excluded. -/
theorem claim_C9 (ageOf : String → Option Int) (sources : List DiscoveredRow) :
    ((rank_sources ageOf sources).all
      (fun p => (should_recommend ageOf p.1 (7/10) 2 90).1)) = true := by
  rw [List.all_eq_true]
  intro p hp
  unfold rank_sources at hp
  dsimp only at hp
  obtain ⟨t, ht, hteq⟩ := List.mem_map.mp hp
  have htL := (List.mem_insertionSort strengthGE).mp ht
  obtain ⟨a, _, hfa⟩ := List.mem_filterMap.mp htL
  by_cases hd : (should_recommend ageOf a (7/10) 2 90).1 = true
  · rw [if_pos hd] at hfa
    obtain rfl := Option.some.inj hfa
    subst hteq
    dsimp only
    exact hd
  · rw [if_neg hd] at hfa
    exact absurd hfa (Option.noConfusion)

/-- `rank_sources` is the sort of `rankedTriples` followed by dropping the
strength component. -/
theorem rank_sources_eq (ageOf : String → Option Int)
    (sources : List DiscoveredRow) :
    rank_sources ageOf sources =
      (List.insertionSort strengthGE (rankedTriples ageOf sources)).map
        (fun t => (t.1, t.2.1)) := rfl

/-- Every triple `rank_sources` sorts carries as third component the
strength of its source. -/
theorem rankedTriples_strength (ageOf : String → Option Int)
    (sources : List DiscoveredRow) :
    ∀ t ∈ rankedTriples ageOf sources, t.2.2 = strength t.1 := by
  intro t ht
  obtain ⟨a, _, hfa⟩ := List.mem_filterMap.mp ht
  by_cases hd : (should_recommend ageOf a (7/10) 2 90).1 = true
  · rw [if_pos hd] at hfa
    obtain rfl := Option.some.inj hfa
    rfl
  · rw [if_neg hd] at hfa
    exact absurd hfa Option.noConfusion

/-- Dropping the strength from the unsorted triples gives exactly the
accepted sources in input order. -/
theorem accepted_sources_eq (ageOf : String → Option Int)
    (sources : List DiscoveredRow) :
    accepted_sources ageOf sources =
      (rankedTriples ageOf sources).map (fun t => (t.1, t.2.1)) := by
  unfold accepted_sources rankedTriples
  rw [List.map_filterMap]
  congr 1
  funext a
  by_cases hd : (should_recommend ageOf a (7/10) 2 90).1 = true
  · rw [if_pos hd, if_pos hd]
    rfl
  · rw [if_neg hd, if_neg hd]
    rfl

/-- Sorting by `strengthGE` does not disturb the sublist of elements
selected by any predicate that only keeps elements of one fixed strength
(stability of the insertion sort on ties). -/
theorem filter_insertionSort_strengthGE (L : List (DiscoveredRow × String × ℚ))
    (q : DiscoveredRow × String × ℚ → Bool)
    (hq : ∀ a ∈ L, ∀ b ∈ L, q a = true → q b = true → strengthGE a b) :
    (List.insertionSort strengthGE L).filter q = L.filter q := by
  have hcpair : (L.filter q).Pairwise strengthGE :=
    List.pairwise_of_forall_mem_list (fun a ha b hb =>
      hq a (List.mem_filter.mp ha).1 b (List.mem_filter.mp hb).1
        (List.mem_filter.mp ha).2 (List.mem_filter.mp hb).2)
  have hsub2 := List.sublist_insertionSort hcpair (List.filter_sublist L)
  have hself : (L.filter q).filter q = L.filter q :=
    List.filter_eq_self.mpr (fun a ha => (List.mem_filter.mp ha).2)
  have hsub3 : (L.filter q).Sublist ((List.insertionSort strengthGE L).filter q) := by
    have h2 := hsub2.filter q
    rwa [hself] at h2
  have hperm := (List.perm_insertionSort strengthGE L).filter q
  exact (hsub3.eq_of_length hperm.length_eq.symm).symm

/-- C7: `rank_sources` output is sorted by descending strength
(0.5·relevance + 0.5·citations/10, citation term uncapped — a 40-citation
source exceeds strength 1), and among accepted sources of equal strength
the input order is preserved (stable ranking). -/
theorem claim_C7 (ageOf : String → Option Int) (sources : List DiscoveredRow) :
    (rank_sources ageOf sources).Pairwise
      (fun p q => strength q.1 ≤ strength p.1) ∧
    (∀ s : ℚ,
      (rank_sources ageOf sources).filter (fun p => decide (strength p.1 = s)) =
        (accepted_sources ageOf sources).filter
          (fun p => decide (strength p.1 = s))) ∧
    1 < strength rowUncapped := by
  have hinv := rankedTriples_strength ageOf sources
  refine ⟨?_, fun s => ?_, ?_⟩
  · rw [rank_sources_eq, List.pairwise_map]
    have hsorted : (List.insertionSort strengthGE
        (rankedTriples ageOf sources)).Pairwise strengthGE :=
      List.sorted_insertionSort strengthGE (rankedTriples ageOf sources)
    refine List.Pairwise.imp_of_mem ?_ hsorted
    intro a b ha hb hab
    dsimp only
    rw [← hinv a ((List.mem_insertionSort strengthGE).mp ha),
      ← hinv b ((List.mem_insertionSort strengthGE).mp hb)]
    exact hab
  · rw [rank_sources_eq, accepted_sources_eq, List.filter_map, List.filter_map]
    congr 1
    refine filter_insertionSort_strengthGE _ _ ?_
    intro a ha b hb hqa hqb
    have has : strength a.1 = s := of_decide_eq_true hqa
    have hbs : strength b.1 = s := of_decide_eq_true hqb
    show b.2.2 ≤ a.2.2
    rw [hinv a ha, hinv b hb, has, hbs]
  · norm_num [strength, rowUncapped]
